import Mathlib

/-!
Verification development for the stats-agent-team repository.

The repository contains several cooperating services (Research, Synthesis,
Verification workers and two orchestrator variants).  This file gives a
shallow embedding of the relevant Go functions and proves or refutes the
spec claims about them.  Network effects (HTTP fetches, LLM calls, JSON
decoding of worker replies) are modelled as explicit oracle arguments; the
control flow, field copying, counters and string checks are translated
directly from the Go source.

Strings are modelled as lists of characters; the Go helpers
strings.Contains, strings.Index and slicing are given executable list
counterparts.
-/

namespace StatsAgent

/-- Wire-level text (page bodies, excerpts, reasons, URLs) as a character list. -/
abbrev Str := List Char

/-- Literal conversion helper for building concrete strings. -/
def str (s : String) : Str := s.toList

/-- Boolean prefix test: first argument is a prefix of the second
(Go strings.HasPrefix with swapped receiver). -/
def isPrefixB : Str → Str → Bool
  | [], _ => true
  | _ :: _, [] => false
  | a :: sub, b :: rest => a == b && isPrefixB sub rest

/-- First index at which `sub` occurs in `s`, or `none` (Go strings.Index
returns -1 in the `none` case; the call sites below only use it when the
occurrence exists). -/
def firstIdx (sub : Str) : Str → Option Nat
  | [] => if isPrefixB sub [] then some 0 else none
  | b :: rest =>
      if isPrefixB sub (b :: rest) then some 0
      else (firstIdx sub rest).map (· + 1)

/-- Go strings.Contains s sub. -/
def containsStr (s sub : Str) : Bool := (firstIdx sub s).isSome

/-- The 500-character context window around the first occurrence of
`excerpt` in `body`, as computed by verifyWithLLM in
src/agents/verification/main.go: start = max(0, idx-500),
stop = min(len body, idx + len excerpt + 500), slice body[start:stop]. -/
def contextWindow (body excerpt : Str) : Str :=
  match firstIdx excerpt body with
  | some idx =>
      let start := idx - 500
      let stop := min body.length (idx + excerpt.length + 500)
      (body.drop start).take (stop - start)
  | none => []

end StatsAgent

namespace StatsAgent.Adk

/-!
The ADK-based verification worker (src/unnamed/part_003) and the data model
of github.com/agentplexus/stats-agent-team/pkg/models as used by the files
under src/.  The models package itself is not under src/; its fields are
taken from every use site in the source (Name, Value float32, Unit, Source,
SourceURL, Excerpt; Statistic adds Verified and DateFound).  float32 values
are modelled as rationals.
-/

/-- models.CandidateStatistic of the agentplexus package, fields as used
across src/agents and src/unnamed/part_003. -/
structure CandidateStatistic where
  name : Str
  value : ℚ
  unit : Str
  source : Str
  sourceURL : Str
  excerpt : Str
  deriving DecidableEq

/-- models.Statistic of the agentplexus package. -/
structure Statistic where
  name : Str
  value : ℚ
  unit : Str
  source : Str
  sourceURL : Str
  excerpt : Str
  verified : Bool
  dateFound : Nat
  deriving DecidableEq

/-- models.VerificationResult of the agentplexus package. -/
structure VerificationResult where
  statistic : Statistic
  verified : Bool
  reason : Str
  deriving DecidableEq

/-- models.VerificationResponse of the agentplexus package.  Counts are Go
ints. -/
structure VerificationResponse where
  results : List VerificationResult
  verified : Int
  failed : Int
  timestamp : Nat
  deriving DecidableEq

/-- verifyStatistic from src/unnamed/part_003 (lines 113-159).  The fetch
of candidate.SourceURL is an explicit argument: `Except.error e` models a
failed FetchURL with error text `e`, `Except.ok body` a successful fetch.
`now` stands for time.Now(). -/
def verifyStatistic (fetched : Except Str Str) (now : Nat)
    (candidate : CandidateStatistic) : VerificationResult :=
  match fetched with
  | .error e =>
      { statistic :=
          { name := candidate.name, value := candidate.value,
            unit := candidate.unit, source := candidate.source,
            sourceURL := candidate.sourceURL, excerpt := candidate.excerpt,
            verified := false, dateFound := now },
        verified := false,
        reason := str "Failed to fetch source: " ++ e }
  | .ok sourceContent =>
      let verified := containsStr sourceContent candidate.excerpt
      { statistic :=
          { name := candidate.name, value := candidate.value,
            unit := candidate.unit, source := candidate.source,
            sourceURL := candidate.sourceURL, excerpt := candidate.excerpt,
            verified := verified, dateFound := now },
        verified := verified,
        reason := if verified then [] else str "Excerpt not found in source content" }

/-- Verify from src/unnamed/part_003 (lines 164-191): loop over the
candidates, appending each result and counting verified and failed rows.
`fetch` maps a source URL to the outcome of FetchURL. -/
def Verify (fetch : Str → Except Str Str) (now : Nat)
    (candidates : List CandidateStatistic) : VerificationResponse :=
  let final := candidates.foldl
    (fun (acc : List VerificationResult × Int × Int) candidate =>
      let result := verifyStatistic (fetch candidate.sourceURL) now candidate
      ( acc.1 ++ [result],
        if result.verified then acc.2.1 + 1 else acc.2.1,
        if result.verified then acc.2.2 else acc.2.2 + 1 ))
    ([], 0, 0)
  { results := final.1, verified := final.2.1, failed := final.2.2,
    timestamp := now }

end StatsAgent.Adk

namespace StatsAgent.Adk

/-!
Wire envelopes of the agentplexus models package, fields as used by the
orchestrators (src/pkg/httpclient/client.go pkg/orchestration section,
src/agents/orchestration/main.go) and by the synthesis worker.  Numeric
request fields are Go ints, modelled as integers.
-/

/-- models.OrchestrationRequest. -/
structure OrchestrationRequest where
  topic : Str
  minVerifiedStats : Int
  maxCandidates : Int
  reputableOnly : Bool
  deriving DecidableEq

/-- models.OrchestrationResponse. -/
structure OrchestrationResponse where
  topic : Str
  statistics : List Statistic
  totalCandidates : Int
  verifiedCount : Int
  failedCount : Int
  timestamp : Nat
  isPartial : Bool
  targetCount : Int
  deriving DecidableEq

/-- models.SearchResult. -/
structure SearchResult where
  url : Str
  title : Str
  snippet : Str
  domain : Str
  deriving DecidableEq

/-- models.ResearchRequest. -/
structure ResearchRequest where
  topic : Str
  minStatistics : Int
  maxStatistics : Int
  reputableOnly : Bool
  deriving DecidableEq

/-- models.ResearchResponse; the orchestrators consume only Candidates. -/
structure ResearchResponse where
  topic : Str
  candidates : List CandidateStatistic
  timestamp : Nat
  deriving DecidableEq

/-- models.SynthesisRequest. -/
structure SynthesisRequest where
  topic : Str
  searchResults : List SearchResult
  minStatistics : Int
  maxStatistics : Int
  deriving DecidableEq

/-- models.SynthesisResponse. -/
structure SynthesisResponse where
  topic : Str
  candidates : List CandidateStatistic
  sourcesAnalyzed : Int
  timestamp : Nat
  deriving DecidableEq

/-- models.VerificationRequest. -/
structure VerificationRequest where
  candidates : List CandidateStatistic
  deriving DecidableEq

end StatsAgent.Adk

namespace StatsAgent

/-- A worker invocation made by an orchestrator, recorded in call order. -/
inductive WorkerCall where
  | research (req : Adk.ResearchRequest)
  | synthesis (req : Adk.SynthesisRequest)
  | verification (req : Adk.VerificationRequest)
  deriving DecidableEq

end StatsAgent

namespace StatsAgent.Eino

open StatsAgent.Adk

/-!
The deterministic Eino orchestrator of the agentplexus pkg/orchestration
package (second document inside src/pkg/httpclient/client.go, lines
352-725): ValidateInput, Research, Synthesis, Verification, QualityCheck,
RetryResearch (a no-op pass-through, retry not implemented in the 4-agent
graph) and Format, composed in that order.  Worker HTTP calls are oracle
arguments; a node error aborts the graph and Orchestrate wraps it.
-/

/-- The three worker endpoints as seen from the orchestrator. -/
structure Oracles where
  research : ResearchRequest → Except Str ResearchResponse
  synthesis : SynthesisRequest → Except Str SynthesisResponse
  verification : VerificationRequest → Except Str VerificationResponse

/-- validateInputLambda: only applies defaults (10 and 30) to zero-valued
bounds.  No check on the topic is performed. -/
def validateInput (req : OrchestrationRequest) : OrchestrationRequest :=
  { req with
    minVerifiedStats := if req.minVerifiedStats = 0 then 10 else req.minVerifiedStats
    maxCandidates := if req.maxCandidates = 0 then 30 else req.maxCandidates }

/-- VerificationState of the workflow. -/
structure VerificationState where
  request : OrchestrationRequest
  allCandidates : List CandidateStatistic
  verified : List Statistic
  failed : Int
  deriving DecidableEq

/-- QualityDecision of the workflow. -/
structure QualityDecision where
  state : VerificationState
  needMore : Bool
  shortfall : Int
  deriving DecidableEq

/-- qualityCheckLambda. -/
def qualityCheck (state : VerificationState) : QualityDecision :=
  let verified : Int := state.verified.length
  let target := state.request.minVerifiedStats
  { state := state, needMore := decide (verified < target),
    shortfall := target - verified }

/-- retryResearchLambda of the 4-agent graph: both branches return the
existing state unchanged (the retry body is a TODO in the source). -/
def retryResearch (decision : QualityDecision) : VerificationState :=
  decision.state

/-- formatResponseLambda. -/
def formatResponse (now : Nat) (state : VerificationState) : OrchestrationResponse :=
  let verifiedCount : Int := state.verified.length
  let targetCount := state.request.minVerifiedStats
  let isPartial := decide (verifiedCount < targetCount)
  { topic := state.request.topic, statistics := state.verified,
    totalCandidates := (state.allCandidates.length : Int),
    verifiedCount := verifiedCount, failedCount := state.failed,
    timestamp := now, isPartial := isPartial, targetCount := targetCount }

/-- Orchestrate: run the compiled graph on a request.  Returns the result
together with the list of worker calls that were issued, in order. -/
def einoOrchestrate (o : Oracles) (now : Nat) (req0 : OrchestrationRequest) :
    Except Str OrchestrationResponse × List WorkerCall :=
  let req := validateInput req0
  let researchReq : ResearchRequest :=
    { topic := req.topic, minStatistics := req.minVerifiedStats,
      maxStatistics := req.maxCandidates, reputableOnly := req.reputableOnly }
  match o.research researchReq with
  | .error e =>
      (.error (str "workflow execution failed: " ++ (str "research failed: " ++ e)),
       [.research researchReq])
  | .ok researchResp =>
      let searchResults := researchResp.candidates.map fun cand =>
        ({ url := cand.sourceURL, title := cand.name, snippet := cand.excerpt,
           domain := cand.source } : SearchResult)
      let synthesisReq : SynthesisRequest :=
        { topic := req.topic, searchResults := searchResults,
          minStatistics := req.minVerifiedStats, maxStatistics := req.maxCandidates }
      match o.synthesis synthesisReq with
      | .error e =>
          (.error (str "workflow execution failed: " ++ (str "synthesis failed: " ++ e)),
           [.research researchReq, .synthesis synthesisReq])
      | .ok synthesisResp =>
          let verifyReq : VerificationRequest := { candidates := synthesisResp.candidates }
          match o.verification verifyReq with
          | .error e =>
              (.error (str "workflow execution failed: " ++ (str "verification failed: " ++ e)),
               [.research researchReq, .synthesis synthesisReq, .verification verifyReq])
          | .ok verifyResp =>
              let verifiedStats :=
                (verifyResp.results.filter fun r => r.verified).map fun r => r.statistic
              let state : VerificationState :=
                { request := req, allCandidates := synthesisResp.candidates,
                  verified := verifiedStats, failed := verifyResp.failed }
              let state := retryResearch (qualityCheck state)
              (.ok (formatResponse now state),
               [.research researchReq, .synthesis synthesisReq, .verification verifyReq])

/-- HandleOrchestrationRequest: the HTTP surface.  A request body that does
not decode yields 400; an Orchestrate error yields 500; otherwise 200 with
the response. -/
def HandleOrchestrationRequest (o : Oracles) (now : Nat)
    (decoded : Except Str OrchestrationRequest) : Nat × Option OrchestrationResponse :=
  match decoded with
  | .error _ => (400, none)
  | .ok req =>
      match (einoOrchestrate o now req).1 with
      | .error _ => (500, none)
      | .ok resp => (200, some resp)

end StatsAgent.Eino

namespace StatsAgent.AdkOrch

open StatsAgent.Adk

/-!
The ADK loop orchestrator (src/agents/orchestration/main.go, orchestrate,
lines 128-272): up to maxRetries = 3 iterations of
Research, Synthesis, Verification with budget arithmetic, no
de-duplication, and a response assembled from whatever was collected.
Worker oracles additionally receive the current retry counter so that
distinct attempts may observe distinct upstream behaviour.
-/

/-- Worker endpoints, indexed by the retry counter at call time. -/
structure LoopOracles where
  research : Nat → ResearchRequest → Except Str ResearchResponse
  synthesis : Nat → SynthesisRequest → Except Str SynthesisResponse
  verification : Nat → VerificationRequest → Except Str VerificationResponse

/-- The mutable locals of orchestrate, plus the recorded worker calls. -/
structure LoopState where
  allCandidates : List CandidateStatistic
  verifiedStatistics : List Statistic
  totalVerified : Int
  totalFailed : Int
  trace : List WorkerCall
  deriving DecidableEq

/-- Step 3 of the loop body: collect verified statistics and count
failures from one VerificationResponse. -/
def collectResults (s : LoopState) (results : List VerificationResult) : LoopState :=
  results.foldl
    (fun acc result =>
      if result.verified then
        { acc with
          verifiedStatistics := acc.verifiedStatistics ++ [result.statistic],
          totalVerified := acc.totalVerified + 1 }
      else { acc with totalFailed := acc.totalFailed + 1 })
    s

/-- The retry loop of orchestrate.  `remaining` counts the iterations left
out of maxRetries = 3; the retry counter advances by exactly one per
iteration on every path of the Go loop body. -/
def orchestrateLoop (o : LoopOracles) (req : OrchestrationRequest) :
    Nat → Nat → LoopState → LoopState
  | _, 0, s => s
  | retry, remaining + 1, s =>
    if s.totalVerified < req.minVerifiedStats then
      let candidatesNeeded := req.minVerifiedStats - s.totalVerified
      let candidatesNeeded := if candidatesNeeded < 5 then 5 else candidatesNeeded
      let candidatesLeft := req.maxCandidates - (s.allCandidates.length : Int)
      if candidatesLeft ≤ 0 then s
      else
        let candidatesNeeded :=
          if candidatesNeeded > candidatesLeft then candidatesLeft else candidatesNeeded
        let researchReq : ResearchRequest :=
          { topic := req.topic, minStatistics := candidatesNeeded,
            maxStatistics := candidatesNeeded + 5, reputableOnly := req.reputableOnly }
        let s := { s with trace := s.trace ++ [.research researchReq] }
        match o.research retry researchReq with
        | .error _ => orchestrateLoop o req (retry + 1) remaining s
        | .ok researchResp =>
            let searchResults := researchResp.candidates.map fun cand =>
              ({ url := cand.sourceURL, title := cand.name, snippet := cand.excerpt,
                 domain := cand.source } : SearchResult)
            let synthesisReq : SynthesisRequest :=
              { topic := req.topic, searchResults := searchResults,
                minStatistics := candidatesNeeded, maxStatistics := candidatesNeeded + 5 }
            let s := { s with trace := s.trace ++ [.synthesis synthesisReq] }
            match o.synthesis retry synthesisReq with
            | .error _ => orchestrateLoop o req (retry + 1) remaining s
            | .ok synthesisResp =>
                let s := { s with
                  allCandidates := s.allCandidates ++ synthesisResp.candidates }
                let verifyReq : VerificationRequest :=
                  { candidates := synthesisResp.candidates }
                let s := { s with trace := s.trace ++ [.verification verifyReq] }
                match o.verification retry verifyReq with
                | .error _ => orchestrateLoop o req (retry + 1) remaining s
                | .ok verifyResp =>
                    let s := collectResults s verifyResp.results
                    if s.totalVerified ≥ req.minVerifiedStats then s
                    else orchestrateLoop o req (retry + 1) remaining s
    else s

/-- orchestrate: run the loop from an empty state and build the final
response.  The source never sets Partial or TargetCount in this variant,
so they keep the Go zero values false and 0. -/
def orchestrate (o : LoopOracles) (now : Nat) (req : OrchestrationRequest) :
    OrchestrationResponse × List WorkerCall :=
  let s := orchestrateLoop o req 0 3
    { allCandidates := [], verifiedStatistics := [], totalVerified := 0,
      totalFailed := 0, trace := [] }
  ({ topic := req.topic, statistics := s.verifiedStatistics,
     totalCandidates := (s.allCandidates.length : Int),
     verifiedCount := s.totalVerified, failedCount := s.totalFailed,
     timestamp := now, isPartial := false, targetCount := 0 }, s.trace)

/-- The verification requests among a call trace, in order. -/
def verificationBatches (trace : List WorkerCall) : List (List CandidateStatistic) :=
  trace.filterMap fun call =>
    match call with
    | .verification vreq => some vreq.candidates
    | _ => none

end StatsAgent.AdkOrch

namespace StatsAgent.Synth

open StatsAgent.Adk

/-!
The synthesis worker (src/agents/synthesis/main.go): per-URL fetch, LLM
extraction with a shape filter, and the Synthesize loop with its stopping
rules.  The LLM call and the JSON decoding of its reply (including the
markdown-fence recovery) are modelled as one oracle producing either a
parse failure or the decoded extraction list.
-/

/-- One parsed item of the LLM reply (StatExtraction in the source,
with a float32 value modelled as a rational). -/
structure StatExtraction where
  name : Str
  value : ℚ
  unit : Str
  excerpt : Str
  deriving DecidableEq

/-- extractStatisticsWithLLM (lines 157-264): truncate the content to
30000 characters, obtain the parsed extraction list from the LLM oracle,
and keep only entries with a nonzero value and a nonempty excerpt, filling
source and source_url from the search result. -/
def extractStatisticsWithLLM
    (llm : SearchResult → Str → Except Str (List StatExtraction))
    (result : SearchResult) (content : Str) :
    Except Str (List CandidateStatistic) :=
  let content := content.take 30000
  match llm result content with
  | .error e => .error e
  | .ok extractions =>
      .ok (extractions.foldl
        (fun acc ext =>
          if ext.value = 0 ∨ ext.excerpt = [] then acc
          else acc ++ [{ name := ext.name, value := ext.value, unit := ext.unit,
                         source := result.domain, sourceURL := result.url,
                         excerpt := ext.excerpt }])
        [])

/-- The per-result loop of Synthesize (lines 288-341) with
minPagesToProcess = 15: skip on fetch or extraction failure, count
processed pages, append extracted statistics, and stop early under the two
break conditions of the source. -/
def synthesizeLoop (fetch : Str → Except Str Str)
    (llm : SearchResult → Str → Except Str (List StatExtraction))
    (minStatistics maxStatistics : Int) :
    List SearchResult → List CandidateStatistic → Nat →
      List CandidateStatistic × Nat
  | [], candidates, pages => (candidates, pages)
  | result :: rest, candidates, pages =>
    if (candidates.length : Int) ≥ maxStatistics ∧ maxStatistics > 0 ∧ pages ≥ 15 then
      (candidates, pages)
    else
      match fetch result.url with
      | .error _ =>
          synthesizeLoop fetch llm minStatistics maxStatistics rest candidates pages
      | .ok content =>
          match extractStatisticsWithLLM llm result content with
          | .error _ =>
              synthesizeLoop fetch llm minStatistics maxStatistics rest candidates pages
          | .ok stats =>
              let pages := pages + 1
              let candidates := if stats.length > 0 then candidates ++ stats else candidates
              if (candidates.length : Int) ≥ minStatistics * 5 ∧ pages ≥ 15 then
                (candidates, pages)
              else
                synthesizeLoop fetch llm minStatistics maxStatistics rest candidates pages

/-- Synthesize: run the loop and assemble the SynthesisResponse. -/
def Synthesize (fetch : Str → Except Str Str)
    (llm : SearchResult → Str → Except Str (List StatExtraction))
    (now : Nat) (req : SynthesisRequest) : SynthesisResponse :=
  let final := synthesizeLoop fetch llm req.minStatistics req.maxStatistics
    req.searchResults [] 0
  { topic := req.topic, candidates := final.1,
    sourcesAnalyzed := (min req.searchResults.length (final.1.length / 2 + 1) : Int),
    timestamp := now }

end StatsAgent.Synth

namespace StatsAgent.Trpc

/-!
The trpc-based verification worker (src/agents/verification/main.go) and
the data model of github.com/grokify/stats-agent/pkg/models as used there.
In that variant the value of a candidate is a string (it is passed to
strings.Contains and rendered with a string format verb), and no use site
in the source carries a unit field.  Statistic adds Verified and DateFound.
-/

/-- models.CandidateStatistic of the grokify stats-agent package, fields as
used in src/agents/verification/main.go, src/agents/research/main.go and
src/unnamed/part_005. -/
structure CandidateStatistic where
  name : Str
  value : Str
  source : Str
  sourceURL : Str
  excerpt : Str
  deriving DecidableEq

/-- models.Statistic of the grokify stats-agent package. -/
structure Statistic where
  name : Str
  value : Str
  source : Str
  sourceURL : Str
  excerpt : Str
  verified : Bool
  dateFound : Nat
  deriving DecidableEq

/-- models.VerificationResult of the grokify stats-agent package. -/
structure VerificationResult where
  statistic : Statistic
  verified : Bool
  reason : Str
  deriving DecidableEq

/-- Outcome of the fuzzy-fallback LLM call in verifyWithLLM: the agent.Run
call together with the json.Unmarshal of its reply, which the source turns
into exactly three cases (transport error, unparseable reply, parsed
verdict). -/
inductive LLMReply where
  | runError (msg : Str)
  | unparseable
  | verdict (verified : Bool) (reason : Str)
  deriving DecidableEq

/-- verifyWithLLM from src/agents/verification/main.go (lines 133-186).
When the excerpt occurs verbatim, the context window of 500 characters
either side of the first match is checked for the value text; otherwise the
LLM fallback verdict is returned (with fixed reasons for a failed run or an
unparseable reply). -/
def verifyWithLLM (candidate : CandidateStatistic) (sourceContent : Str)
    (llm : LLMReply) : Bool × Str :=
  if containsStr sourceContent candidate.excerpt then
    let context := contextWindow sourceContent candidate.excerpt
    if containsStr context candidate.value then (true, [])
    else (false, str "Value not found in excerpt context")
  else
    match llm with
    | .runError msg => (false, str "LLM verification failed: " ++ msg)
    | .unparseable => (false, str "Excerpt not found in source content")
    | .verdict verified reason => (verified, reason)

/-- VerifyStatistic from src/agents/verification/main.go (lines 61-101).
`fetched` models fetchSourceContent on candidate.SourceURL, `llm` the
fallback oracle, `now` time.Now(). -/
def VerifyStatistic (fetched : Except Str Str) (llm : LLMReply) (now : Nat)
    (candidate : CandidateStatistic) : VerificationResult :=
  match fetched with
  | .error e =>
      { statistic :=
          { name := candidate.name, value := candidate.value,
            source := candidate.source, sourceURL := candidate.sourceURL,
            excerpt := candidate.excerpt, verified := false, dateFound := now },
        verified := false,
        reason := str "Failed to fetch source: " ++ e }
  | .ok sourceContent =>
      let vr := verifyWithLLM candidate sourceContent llm
      { statistic :=
          { name := candidate.name, value := candidate.value,
            source := candidate.source, sourceURL := candidate.sourceURL,
            excerpt := candidate.excerpt, verified := vr.1, dateFound := now },
        verified := vr.1,
        reason := vr.2 }

end StatsAgent.Trpc

namespace StatsAgent

/-!
Concrete inputs used by counterexamples and witnesses.
-/

/-- A candidate whose excerpt occurs in exBody but whose value text does
not occur anywhere in exBody. -/
def exCandidate : Adk.CandidateStatistic :=
  { name := str "stat", value := 42, unit := str "people",
    source := str "example.org", sourceURL := str "https://example.org/p",
    excerpt := str "the excerpt" }

/-- A page body that contains the excerpt of exCandidate but no digits. -/
def exBody : Str := str "page with the excerpt here"

/-- A plain request with explicit bounds. -/
def stdReq : Adk.OrchestrationRequest :=
  { topic := str "t", minVerifiedStats := 10, maxCandidates := 30,
    reputableOnly := false }

/-- A request whose topic is the empty string. -/
def emptyTopicReq : Adk.OrchestrationRequest :=
  { topic := [], minVerifiedStats := 5, maxCandidates := 20,
    reputableOnly := true }

/-- A request with min_verified_stats = 0. -/
def zeroMinReq : Adk.OrchestrationRequest :=
  { topic := str "t", minVerifiedStats := 0, maxCandidates := 20,
    reputableOnly := false }

/-- Workers that all succeed with empty payloads. -/
def okEmptyOracles : Eino.Oracles :=
  { research := fun _ => .ok { topic := [], candidates := [], timestamp := 0 }
    synthesis := fun _ => .ok { topic := [], candidates := [], sourcesAnalyzed := 0, timestamp := 0 }
    verification := fun _ => .ok { results := [], verified := 0, failed := 0, timestamp := 0 } }

/-- Workers where the synthesis endpoint is down. -/
def synthFailOracles : Eino.Oracles :=
  { research := fun _ => .ok { topic := [], candidates := [], timestamp := 0 }
    synthesis := fun _ => .error (str "connection refused")
    verification := fun _ => .ok { results := [], verified := 0, failed := 0, timestamp := 0 } }

/-- A fetcher for which every URL is unreachable. -/
def fetchNone : Str → Except Str Str := fun _ => .error (str "no route to host")

/-- Workers whose verification endpoint runs the in-repo Verify function
over an unreachable fetcher, and which supply one candidate. -/
def workerOracles : Eino.Oracles :=
  { research := fun _ => .ok { topic := str "t", candidates := [exCandidate], timestamp := 0 }
    synthesis := fun _ => .ok { topic := str "t", candidates := [exCandidate], sourcesAnalyzed := 1, timestamp := 0 }
    verification := fun vreq => .ok (Adk.Verify fetchNone 0 vreq.candidates) }

/-- Loop workers that return the same single candidate on every attempt,
with a verification endpoint that runs the in-repo Verify function over an
unreachable fetcher (so nothing verifies and the loop keeps retrying). -/
def dupOracles : AdkOrch.LoopOracles :=
  { research := fun _ _ => .ok { topic := str "t", candidates := [exCandidate], timestamp := 0 }
    synthesis := fun _ _ => .ok { topic := str "t", candidates := [exCandidate], sourcesAnalyzed := 1, timestamp := 0 }
    verification := fun _ vreq => .ok (Adk.Verify fetchNone 0 vreq.candidates) }

/-- A trpc-variant candidate whose excerpt and value both occur nowhere in
exBodyT. -/
def exCandidateT : Trpc.CandidateStatistic :=
  { name := str "stat", value := str "42", source := str "example.org",
    sourceURL := str "https://example.org/p", excerpt := str "absent excerpt" }

/-- A page body containing neither the excerpt nor the value of
exCandidateT. -/
def exBodyT : Str := str "completely different page text"

/-- Whether one recorded worker call succeeded against the given oracles. -/
def callSucceeded (o : Eino.Oracles) : WorkerCall → Bool
  | .research r => (o.research r).isOk
  | .synthesis r => (o.synthesis r).isOk
  | .verification r => (o.verification r).isOk

/-- A search result for the synthesis witness. -/
def exSearchResult : Adk.SearchResult :=
  { url := str "https://example.org/p", title := str "t",
    snippet := str "s", domain := str "example.org" }

/-- A fetcher that returns exBody for every URL. -/
def fetchConst : Str → Except Str Str := fun _ => .ok exBody

/-- An extraction oracle returning one well-formed item. -/
def llmOneStat : Adk.SearchResult → Str → Except Str (List Synth.StatExtraction) :=
  fun _ _ => .ok [{ name := str "stat", value := 42, unit := str "people",
                    excerpt := str "the excerpt" }]

/-- A synthesis request with one search result. -/
def synthReq : Adk.SynthesisRequest :=
  { topic := str "t", searchResults := [exSearchResult],
    minStatistics := 10, maxStatistics := 20 }

/-- The response produced by einoOrchestrate on workerOracles and stdReq. -/
def respW : Adk.OrchestrationResponse :=
  { topic := str "t", statistics := [], totalCandidates := 1, verifiedCount := 0,
    failedCount := 1, timestamp := 0, isPartial := true, targetCount := 10 }

/-- The response produced by einoOrchestrate on okEmptyOracles for both
stdReq and zeroMinReq. -/
def respEmpty : Adk.OrchestrationResponse :=
  { topic := str "t", statistics := [], totalCandidates := 0, verifiedCount := 0,
    failedCount := 0, timestamp := 0, isPartial := true, targetCount := 10 }

/-- The research request einoOrchestrate issues for stdReq. -/
def resReq0 : Adk.ResearchRequest :=
  { topic := str "t", minStatistics := 10, maxStatistics := 30,
    reputableOnly := false }

end StatsAgent


namespace StatsAgent

/-!
Helper lemmas about the embedded workers and orchestrators.
-/

/-- Unfolding the counting fold of Verify over an arbitrary accumulator. -/
theorem verify_foldl (fetch : Str → Except Str Str) (now : Nat)
    (cands : List Adk.CandidateStatistic) :
    ∀ (rs : List Adk.VerificationResult) (v f : Int),
      cands.foldl
        (fun (acc : List Adk.VerificationResult × Int × Int) candidate =>
          let result := Adk.verifyStatistic (fetch candidate.sourceURL) now candidate
          ( acc.1 ++ [result],
            if result.verified then acc.2.1 + 1 else acc.2.1,
            if result.verified then acc.2.2 else acc.2.2 + 1 ))
        (rs, v, f) =
      (rs ++ cands.map (fun c => Adk.verifyStatistic (fetch c.sourceURL) now c),
       v + (((cands.map (fun c => Adk.verifyStatistic (fetch c.sourceURL) now c)).filter
         (fun r => r.verified)).length : Int),
       f + (((cands.map (fun c => Adk.verifyStatistic (fetch c.sourceURL) now c)).filter
         (fun r => !r.verified)).length : Int)) := by
  induction cands with
  | nil => intro rs v f; simp
  | cons c cs ih =>
      intro rs v f
      simp only [List.foldl_cons, List.map_cons, List.filter_cons]
      rw [ih]
      by_cases h : (Adk.verifyStatistic (fetch c.sourceURL) now c).verified
      · simp only [h, if_true, Bool.not_true, List.length_cons]
        refine Prod.ext (by simp) (Prod.ext ?_ ?_) <;> push_cast <;> ring
      · simp only [h, if_false, Bool.not_false, List.length_cons,
          Bool.false_eq_true, ite_false, ite_true]
        refine Prod.ext (by simp) (Prod.ext ?_ ?_) <;> push_cast <;> ring

/-- The results of Verify are the per-candidate verifyStatistic outputs in
input order. -/
theorem Verify_results (fetch : Str → Except Str Str) (now : Nat)
    (cands : List Adk.CandidateStatistic) :
    (Adk.Verify fetch now cands).results =
      cands.map fun c => Adk.verifyStatistic (fetch c.sourceURL) now c := by
  simp only [Adk.Verify]
  rw [verify_foldl]
  simp

/-- The verified counter of Verify counts the true rows. -/
theorem Verify_verified (fetch : Str → Except Str Str) (now : Nat)
    (cands : List Adk.CandidateStatistic) :
    (Adk.Verify fetch now cands).verified =
      (((cands.map (fun c => Adk.verifyStatistic (fetch c.sourceURL) now c)).filter
        (fun r => r.verified)).length : Int) := by
  simp only [Adk.Verify]
  rw [verify_foldl]
  simp

/-- The failed counter of Verify counts the false rows. -/
theorem Verify_failed (fetch : Str → Except Str Str) (now : Nat)
    (cands : List Adk.CandidateStatistic) :
    (Adk.Verify fetch now cands).failed =
      (((cands.map (fun c => Adk.verifyStatistic (fetch c.sourceURL) now c)).filter
        (fun r => !r.verified)).length : Int) := by
  simp only [Adk.Verify]
  rw [verify_foldl]
  simp

/-- collectResults leaves the gathered candidate list unchanged. -/
theorem collectResults_allCandidates (results : List Adk.VerificationResult) :
    ∀ s : AdkOrch.LoopState,
      (AdkOrch.collectResults s results).allCandidates = s.allCandidates := by
  induction results with
  | nil => intro s; rfl
  | cons r rs ih =>
      intro s
      simp only [AdkOrch.collectResults, List.foldl_cons] at ih ⊢
      rw [ih]
      by_cases h : r.verified <;> simp [h]

/-- collectResults leaves the call trace unchanged. -/
theorem collectResults_trace (results : List Adk.VerificationResult) :
    ∀ s : AdkOrch.LoopState,
      (AdkOrch.collectResults s results).trace = s.trace := by
  induction results with
  | nil => intro s; rfl
  | cons r rs ih =>
      intro s
      simp only [AdkOrch.collectResults, List.foldl_cons] at ih ⊢
      rw [ih]
      by_cases h : r.verified <;> simp [h]

/-- verificationBatches distributes over append. -/
theorem verificationBatches_append (t1 t2 : List WorkerCall) :
    AdkOrch.verificationBatches (t1 ++ t2) =
      AdkOrch.verificationBatches t1 ++ AdkOrch.verificationBatches t2 := by
  simp [AdkOrch.verificationBatches]

/-- A research call contributes no verification batch. -/
theorem verificationBatches_research (r : Adk.ResearchRequest) :
    AdkOrch.verificationBatches [.research r] = [] := rfl

/-- A synthesis call contributes no verification batch. -/
theorem verificationBatches_synthesis (r : Adk.SynthesisRequest) :
    AdkOrch.verificationBatches [.synthesis r] = [] := rfl

/-- A verification call contributes its candidate batch. -/
theorem verificationBatches_verification (r : Adk.VerificationRequest) :
    AdkOrch.verificationBatches [.verification r] = [r.candidates] := rfl

/-- Loop invariant of the ADK orchestrator: the length of allCandidates
always equals the summed sizes of the batches sent to verification, because
every successful synthesis batch is appended whole and forwarded whole. -/
theorem orchestrateLoop_candidates_batches (o : AdkOrch.LoopOracles)
    (req : Adk.OrchestrationRequest) :
    ∀ (remaining retry : Nat) (s : AdkOrch.LoopState),
      s.allCandidates.length =
        ((AdkOrch.verificationBatches s.trace).map List.length).sum →
      (AdkOrch.orchestrateLoop o req retry remaining s).allCandidates.length =
        ((AdkOrch.verificationBatches
          (AdkOrch.orchestrateLoop o req retry remaining s).trace).map List.length).sum := by
  intro remaining
  induction remaining with
  | zero => intro retry s h; simpa [AdkOrch.orchestrateLoop] using h
  | succ n ih =>
      intro retry s h
      rw [AdkOrch.orchestrateLoop]
      split
      case isFalse => exact h
      case isTrue =>
        dsimp only
        split
        case isTrue => exact h
        case isFalse =>
          split
          case h_1 =>
            refine ih (retry + 1) _ ?_
            simp only [verificationBatches_append, verificationBatches_research,
              List.map_append, List.sum_append, List.map_nil, List.sum_nil]
            omega
          case h_2 =>
            split
            case h_1 =>
              refine ih (retry + 1) _ ?_
              simp only [verificationBatches_append, verificationBatches_research,
                verificationBatches_synthesis, List.map_append, List.sum_append,
                List.map_nil, List.sum_nil]
              omega
            case h_2 =>
              split
              case h_1 =>
                refine ih (retry + 1) _ ?_
                simp only [List.length_append, verificationBatches_append,
                  verificationBatches_research, verificationBatches_synthesis,
                  verificationBatches_verification, List.map_append, List.sum_append,
                  List.map_cons, List.sum_cons, List.map_nil, List.sum_nil]
                omega
              case h_2 =>
                have hpres : ∀ (vr : List Adk.VerificationResult)
                    (s1 : AdkOrch.LoopState),
                    s1.allCandidates.length =
                      ((AdkOrch.verificationBatches s1.trace).map List.length).sum →
                    (AdkOrch.collectResults s1 vr).allCandidates.length =
                      ((AdkOrch.verificationBatches
                        (AdkOrch.collectResults s1 vr).trace).map List.length).sum := by
                  intro vr s1 h1
                  rw [collectResults_allCandidates, collectResults_trace]
                  exact h1
                split <;> split <;> split <;>
                  first
                  | (apply hpres
                     simp only [List.length_append, verificationBatches_append,
                       verificationBatches_research, verificationBatches_synthesis,
                       verificationBatches_verification, List.map_append, List.sum_append,
                       List.map_cons, List.sum_cons, List.map_nil, List.sum_nil]
                     omega)
                  | (refine ih (retry + 1) _ ?_
                     apply hpres
                     simp only [List.length_append, verificationBatches_append,
                       verificationBatches_research, verificationBatches_synthesis,
                       verificationBatches_verification, List.map_append, List.sum_append,
                       List.map_cons, List.sum_cons, List.map_nil, List.sum_nil]
                     omega)
/-- Every candidate built by the extraction filter has a nonempty excerpt
and a nonzero value. -/
theorem extractFold_shape (result : Adk.SearchResult) :
    ∀ (extractions : List Synth.StatExtraction) (acc : List Adk.CandidateStatistic),
      (∀ c ∈ acc, c.excerpt ≠ [] ∧ c.value ≠ 0) →
      ∀ c ∈ extractions.foldl
        (fun acc ext =>
          if ext.value = 0 ∨ ext.excerpt = [] then acc
          else acc ++ [{ name := ext.name, value := ext.value, unit := ext.unit,
                         source := result.domain, sourceURL := result.url,
                         excerpt := ext.excerpt }])
        acc, c.excerpt ≠ [] ∧ c.value ≠ 0 := by
  intro extractions
  induction extractions with
  | nil => intro acc hacc c hc; exact hacc c hc
  | cons ext rest ih =>
      intro acc hacc c hc
      simp only [List.foldl_cons] at hc
      refine ih _ ?_ c hc
      intro d hd
      by_cases hcase : ext.value = 0 ∨ ext.excerpt = []
      · rw [if_pos hcase] at hd
        exact hacc d hd
      · rw [if_neg hcase] at hd
        push_neg at hcase
        rcases List.mem_append.mp hd with hmem | hmem
        · exact hacc d hmem
        · rcases List.mem_singleton.mp hmem with rfl
          exact ⟨hcase.2, hcase.1⟩

/-- extractStatisticsWithLLM only returns well-shaped candidates. -/
theorem extract_shape (llm : Adk.SearchResult → Str → Except Str (List Synth.StatExtraction))
    (result : Adk.SearchResult) (content : Str)
    (cands : List Adk.CandidateStatistic)
    (h : Synth.extractStatisticsWithLLM llm result content = .ok cands) :
    ∀ c ∈ cands, c.excerpt ≠ [] ∧ c.value ≠ 0 := by
  unfold Synth.extractStatisticsWithLLM at h
  dsimp only at h
  split at h
  · exact absurd h (by simp)
  · rw [Except.ok.injEq] at h
    subst h
    exact extractFold_shape result _ [] (by simp)

/-- The Synthesize loop preserves well-shapedness of the candidate list. -/
theorem synthesizeLoop_shape (fetch : Str → Except Str Str)
    (llm : Adk.SearchResult → Str → Except Str (List Synth.StatExtraction))
    (minStatistics maxStatistics : Int) :
    ∀ (results : List Adk.SearchResult) (cands : List Adk.CandidateStatistic) (pages : Nat),
      (∀ c ∈ cands, c.excerpt ≠ [] ∧ c.value ≠ 0) →
      ∀ c ∈ (Synth.synthesizeLoop fetch llm minStatistics maxStatistics
        results cands pages).1, c.excerpt ≠ [] ∧ c.value ≠ 0 := by
  intro results
  induction results with
  | nil => intro cands pages hc; simpa [Synth.synthesizeLoop] using hc
  | cons result rest ih =>
      intro cands pages hc
      rw [Synth.synthesizeLoop]
      split
      case isTrue => exact hc
      case isFalse =>
        split
        case h_1 => exact ih cands pages hc
        case h_2 =>
          split
          case h_1 => exact ih cands pages hc
          case h_2 stats hstats =>
            have hstats2 : ∀ c ∈ stats, c.excerpt ≠ [] ∧ c.value ≠ 0 :=
              extract_shape llm result _ stats hstats
            have hboth : ∀ c ∈ cands ++ stats, c.excerpt ≠ [] ∧ c.value ≠ 0 := by
              intro c hcmem
              rcases List.mem_append.mp hcmem with hmem | hmem
              · exact hc c hmem
              · exact hstats2 c hmem
            dsimp only
            split <;> split <;>
              first
              | exact hboth
              | exact hc
              | exact ih _ _ hboth
              | exact ih _ _ hc

/-- Bool-predicate filters of a list split its length. -/
theorem length_filter_split (l : List Adk.VerificationResult) :
    (l.filter fun r => r.verified).length +
      (l.filter fun r => !r.verified).length = l.length := by
  induction l with
  | nil => rfl
  | cons r t ih => by_cases h : r.verified <;> simp [List.filter_cons, h] <;> omega

/-- C1, counterexample: the ADK verification worker marks a candidate
verified although the textual form of its value (42) occurs nowhere in the
fetched body, hence not within 500 characters of the excerpt match. -/
theorem claim1_counterexample :
    (Adk.verifyStatistic (.ok exBody) 0 exCandidate).verified = true ∧
    containsStr (contextWindow exBody exCandidate.excerpt) (str "42") = false ∧
    containsStr exBody (str "42") = false := by
  refine ⟨by decide, by decide, by decide⟩

/-- C1, amended: for the ADK verification worker (verifyStatistic in
src/unnamed/part_003), verified = true holds exactly when the source was
fetched successfully and the excerpt occurs as a contiguous substring of
the fetched body; no check on the value is performed. -/
theorem claim1_amended (fetched : Except Str Str) (now : Nat)
    (c : Adk.CandidateStatistic) :
    (Adk.verifyStatistic fetched now c).verified = true ↔
      ∃ body, fetched = .ok body ∧ containsStr body c.excerpt = true := by
  cases fetched with
  | error e => simp [Adk.verifyStatistic]
  | ok body => simp [Adk.verifyStatistic]

/-- C2, counterexample: an OrchestrationRequest with empty topic is not
rejected: the HTTP handler answers 200, Orchestrate succeeds, and all
three workers are called. -/
theorem claim2_counterexample :
    Eino.HandleOrchestrationRequest okEmptyOracles 0 (.ok emptyTopicReq) ≠ (400, none) ∧
    (Eino.einoOrchestrate okEmptyOracles 0 emptyTopicReq).1.isOk = true ∧
    (Eino.einoOrchestrate okEmptyOracles 0 emptyTopicReq).2.length = 3 := by
  refine ⟨by decide, by decide, by decide⟩

/-- C2, amended: Orchestrate performs no topic validation at all.  For
every request, empty topic included, the first worker call is always
Research with the defaulted bounds; a 400 arises only from a request body
that fails to decode. -/
theorem claim2_amended (o : Eino.Oracles) (now : Nat)
    (req : Adk.OrchestrationRequest) :
    (Eino.einoOrchestrate o now req).2.head? = some (.research
      { topic := req.topic,
        minStatistics := if req.minVerifiedStats = 0 then 10 else req.minVerifiedStats,
        maxStatistics := if req.maxCandidates = 0 then 30 else req.maxCandidates,
        reputableOnly := req.reputableOnly }) := by
  simp only [Eino.einoOrchestrate, Eino.validateInput]
  split
  · rfl
  · split
    · rfl
    · split <;> rfl

/-- C3, counterexample: when the Synthesis worker call fails, the
deterministic orchestrator does not reach Format: Orchestrate returns an
error and the HTTP handler answers 500 with no response body. -/
theorem claim3_counterexample :
    (Eino.einoOrchestrate synthFailOracles 0 stdReq).1.isOk = false ∧
    Eino.HandleOrchestrationRequest synthFailOracles 0 (.ok stdReq) = (500, none) := by
  refine ⟨by decide, by decide⟩

/-- C3, amended: in the deterministic Eino orchestrator a worker failure
is never absorbed: whenever Orchestrate returns a response, every worker
call it issued succeeded.  A Synthesis or Verification failure therefore
propagates as an overall error instead of yielding a partial response. -/
theorem claim3_amended (o : Eino.Oracles) (now : Nat)
    (req : Adk.OrchestrationRequest) (resp : Adk.OrchestrationResponse)
    (h : (Eino.einoOrchestrate o now req).1 = .ok resp) :
    ∀ call ∈ (Eino.einoOrchestrate o now req).2, callSucceeded o call = true := by
  revert h
  simp only [Eino.einoOrchestrate]
  split
  case h_1 e heq => intro h; exact absurd h (by simp)
  case h_2 rresp heq1 =>
    split
    case h_1 e heq => intro h; exact absurd h (by simp)
    case h_2 sresp heq2 =>
      split
      case h_1 e heq => intro h; exact absurd h (by simp)
      case h_2 vresp heq3 =>
        intro _ call hcall
        simp only [List.mem_cons, List.not_mem_nil, or_false] at hcall
        rcases hcall with rfl | rfl | rfl <;>
          simp [callSucceeded, heq1, heq2, heq3, Except.isOk, Except.toBool]

/-- C3, witness: a concrete successful run on which every issued worker
call is certified successful. -/
theorem claim3_witness : callSucceeded okEmptyOracles (.research resReq0) = true :=
  claim3_amended okEmptyOracles 0 stdReq respEmpty rfl (.research resReq0) (by decide)

/-- C4, counterexample: three retry attempts each return the same
candidate with an identical (source_url, excerpt) pair.  The pair is
counted three times in total_candidates and the batch containing it is
sent to verification three times, so duplicates are neither dropped nor
counted once. -/
theorem claim4_counterexample :
    (AdkOrch.orchestrate dupOracles 0 stdReq).1.totalCandidates = 3 ∧
    AdkOrch.verificationBatches (AdkOrch.orchestrate dupOracles 0 stdReq).2 =
      [[exCandidate], [exCandidate], [exCandidate]] := by
  refine ⟨by decide, by decide⟩

/-- C4, amended: the retry loop performs no de-duplication whatsoever:
every candidate of every successful synthesis batch is appended to
all_candidates and forwarded whole to the Verification worker, so
total_candidates always equals the summed sizes of the verification
batches, duplicates included. -/
theorem claim4_amended (o : AdkOrch.LoopOracles) (now : Nat)
    (req : Adk.OrchestrationRequest) :
    (AdkOrch.orchestrate o now req).1.totalCandidates =
      (((AdkOrch.verificationBatches
        (AdkOrch.orchestrate o now req).2).map List.length).sum : Int) := by
  have h := orchestrateLoop_candidates_batches o req 3 0
    { allCandidates := [], verifiedStatistics := [], totalVerified := 0,
      totalFailed := 0, trace := [] } (by simp [AdkOrch.verificationBatches])
  simp only [AdkOrch.orchestrate]
  exact_mod_cast h

/-- C5: when the Verification worker endpoint runs the in-repo Verify
function, every response of the deterministic orchestrator satisfies
verified_count + failed_count = total_candidates. -/
theorem claim5_confirmed (o : Eino.Oracles) (fetch : Str → Except Str Str)
    (now vnow : Nat) (req : Adk.OrchestrationRequest)
    (resp : Adk.OrchestrationResponse)
    (hworker : ∀ vreq : Adk.VerificationRequest,
      o.verification vreq = .ok (Adk.Verify fetch vnow vreq.candidates))
    (h : (Eino.einoOrchestrate o now req).1 = .ok resp) :
    resp.verifiedCount + resp.failedCount = resp.totalCandidates := by
  simp only [Eino.einoOrchestrate] at h
  split at h
  case h_1 => exact absurd h (by simp)
  case h_2 rresp heq1 =>
    split at h
    case h_1 => exact absurd h (by simp)
    case h_2 sresp heq2 =>
      split at h
      case h_1 e heq3 => rw [hworker] at heq3; exact absurd heq3 (by simp)
      case h_2 vresp heq3 =>
        rw [hworker, Except.ok.injEq] at heq3
        subst heq3
        simp only [Except.ok.injEq] at h
        subst h
        simp only [Eino.formatResponse, Eino.retryResearch, Eino.qualityCheck]
        rw [Verify_results, Verify_failed]
        simp only [List.length_map]
        have hsplit := length_filter_split
          (sresp.candidates.map fun c => Adk.verifyStatistic (fetch c.sourceURL) vnow c)
        simp only [List.length_map] at hsplit
        omega

/-- C5, witness: the invariant instantiated on a concrete run with one
candidate that fails verification. -/
theorem claim5_witness :
    respW.verifiedCount + respW.failedCount = respW.totalCandidates :=
  claim5_confirmed workerOracles fetchNone 0 0 stdReq respW (fun _ => rfl) rfl

/-- C6: every response of the deterministic orchestrator has
partial = (verified_count < target_count), and target_count echoes the
defaulted min_verified_stats of the request. -/
theorem claim6_confirmed (o : Eino.Oracles) (now : Nat)
    (req : Adk.OrchestrationRequest) (resp : Adk.OrchestrationResponse)
    (h : (Eino.einoOrchestrate o now req).1 = .ok resp) :
    resp.isPartial = decide (resp.verifiedCount < resp.targetCount) ∧
    resp.targetCount = (Eino.validateInput req).minVerifiedStats := by
  simp only [Eino.einoOrchestrate] at h
  split at h
  case h_1 => exact absurd h (by simp)
  case h_2 =>
    split at h
    case h_1 => exact absurd h (by simp)
    case h_2 =>
      split at h
      case h_1 => exact absurd h (by simp)
      case h_2 =>
        simp only [Except.ok.injEq] at h
        subst h
        exact ⟨rfl, rfl⟩

/-- C6, witness: the two equalities instantiated on a concrete run. -/
theorem claim6_witness :
    respEmpty.isPartial = decide (respEmpty.verifiedCount < respEmpty.targetCount) ∧
    respEmpty.targetCount = (Eino.validateInput stdReq).minVerifiedStats :=
  claim6_confirmed okEmptyOracles 0 stdReq respEmpty rfl

/-- C7, counterexample: a request with min_verified_stats = 0 is defaulted
to 10; with no candidates at all the response has an empty statistics list
but partial = true, not false. -/
theorem claim7_counterexample :
    (Eino.einoOrchestrate okEmptyOracles 0 zeroMinReq).1 = .ok respEmpty ∧
    respEmpty.statistics = [] ∧ respEmpty.isPartial = true := by
  refine ⟨rfl, rfl, rfl⟩

/-- C7, amended: min_verified_stats = 0 is treated as unset: the default
10 is applied, so every successful response to such a request carries
target_count = 10 and partial = (verified_count < 10); the statistics list
is whatever was verified, not forced empty. -/
theorem claim7_amended (o : Eino.Oracles) (now : Nat)
    (req : Adk.OrchestrationRequest) (resp : Adk.OrchestrationResponse)
    (h0 : req.minVerifiedStats = 0)
    (h : (Eino.einoOrchestrate o now req).1 = .ok resp) :
    resp.targetCount = 10 ∧ resp.isPartial = decide (resp.verifiedCount < 10) := by
  have h6 := claim6_confirmed o now req resp h
  rw [Eino.validateInput, h0] at h6
  simp only [reduceIte] at h6
  exact ⟨h6.2, by rw [h6.1, h6.2]⟩

/-- C7, witness: the amended behaviour on a concrete zero-target run. -/
theorem claim7_witness :
    respEmpty.targetCount = 10 ∧
    respEmpty.isPartial = decide (respEmpty.verifiedCount < 10) :=
  claim7_amended okEmptyOracles 0 zeroMinReq respEmpty rfl rfl

/-- C8, counterexample: with the excerpt absent from the body, the fuzzy
fallback returns the LLM verdict verified = true although the value text
occurs nowhere in the body. -/
theorem claim8_counterexample :
    containsStr exBodyT exCandidateT.excerpt = false ∧
    containsStr exBodyT exCandidateT.value = false ∧
    Trpc.verifyWithLLM exCandidateT exBodyT (.verdict true (str "looks fine")) =
      (true, str "looks fine") := by
  refine ⟨by decide, by decide, by decide⟩

/-- C8, amended: when the excerpt is not a substring of the fetched body,
the fallback yields a boolean and a reason, but the LLM verdict is passed
through unchecked: the result is either verified = false (with the fixed
reasons on a failed or unparseable LLM reply), or exactly the parsed LLM
verdict, with no confirmation that the numeric value occurs in the body. -/
theorem claim8_amended (c : Trpc.CandidateStatistic) (body : Str)
    (llm : Trpc.LLMReply) (now : Nat)
    (h : containsStr body c.excerpt = false) :
    (Trpc.VerifyStatistic (.ok body) llm now c).verified = false ∨
    ∃ reason, llm = .verdict true reason ∧
      (Trpc.VerifyStatistic (.ok body) llm now c).verified = true ∧
      (Trpc.VerifyStatistic (.ok body) llm now c).reason = reason := by
  cases llm with
  | runError msg => left; simp [Trpc.VerifyStatistic, Trpc.verifyWithLLM, h]
  | unparseable => left; simp [Trpc.VerifyStatistic, Trpc.verifyWithLLM, h]
  | verdict v reason =>
      cases v with
      | false => left; simp [Trpc.VerifyStatistic, Trpc.verifyWithLLM, h]
      | true =>
          right
          exact ⟨reason, rfl, by simp [Trpc.VerifyStatistic, Trpc.verifyWithLLM, h],
            by simp [Trpc.VerifyStatistic, Trpc.verifyWithLLM, h]⟩

/-- C8, witness: the amended characterisation instantiated at a concrete
candidate, body and LLM verdict. -/
theorem claim8_witness :
    (Trpc.VerifyStatistic (.ok exBodyT) (.verdict true (str "looks fine")) 0
      exCandidateT).verified = false ∨
    ∃ reason, Trpc.LLMReply.verdict true (str "looks fine") = .verdict true reason ∧
      (Trpc.VerifyStatistic (.ok exBodyT) (.verdict true (str "looks fine")) 0
        exCandidateT).verified = true ∧
      (Trpc.VerifyStatistic (.ok exBodyT) (.verdict true (str "looks fine")) 0
        exCandidateT).reason = reason :=
  claim8_amended exCandidateT exBodyT (.verdict true (str "looks fine")) 0 (by decide)

/-- C9: every candidate returned by Synthesize has a nonempty excerpt and
a nonzero value, because the extraction step discards entries with a zero
value or an empty excerpt. -/
theorem claim9_confirmed (fetch : Str → Except Str Str)
    (llm : Adk.SearchResult → Str → Except Str (List Synth.StatExtraction))
    (now : Nat) (req : Adk.SynthesisRequest) :
    ∀ c ∈ (Synth.Synthesize fetch llm now req).candidates,
      c.excerpt ≠ [] ∧ c.value ≠ 0 := by
  intro c hc
  simp only [Synth.Synthesize] at hc
  exact synthesizeLoop_shape fetch llm req.minStatistics req.maxStatistics
    req.searchResults [] 0 (by simp) c hc

/-- C9, witness: the invariant instantiated on a concrete run that emits
one candidate. -/
theorem claim9_witness : exCandidate.excerpt ≠ [] ∧ exCandidate.value ≠ 0 :=
  claim9_confirmed fetchConst llmOneStat 0 synthReq exCandidate (by decide)

/-- C10: on both the fetch-failure path and the content-check path, each
verification worker embeds a Statistic whose fields are exactly those of
the input candidate, whose Verified field equals the result Verified flag,
and whose DateFound is the verification instant; this holds for the ADK
worker (with unit) and for the trpc worker (whose data model carries no
unit field). -/
theorem claim10_confirmed (fetched : Except Str Str) (now : Nat)
    (c : Adk.CandidateStatistic) (ct : Trpc.CandidateStatistic)
    (llm : Trpc.LLMReply) :
    ((Adk.verifyStatistic fetched now c).statistic.name = c.name ∧
     (Adk.verifyStatistic fetched now c).statistic.value = c.value ∧
     (Adk.verifyStatistic fetched now c).statistic.unit = c.unit ∧
     (Adk.verifyStatistic fetched now c).statistic.source = c.source ∧
     (Adk.verifyStatistic fetched now c).statistic.sourceURL = c.sourceURL ∧
     (Adk.verifyStatistic fetched now c).statistic.excerpt = c.excerpt ∧
     (Adk.verifyStatistic fetched now c).statistic.verified =
       (Adk.verifyStatistic fetched now c).verified ∧
     (Adk.verifyStatistic fetched now c).statistic.dateFound = now) ∧
    ((Trpc.VerifyStatistic fetched llm now ct).statistic.name = ct.name ∧
     (Trpc.VerifyStatistic fetched llm now ct).statistic.value = ct.value ∧
     (Trpc.VerifyStatistic fetched llm now ct).statistic.source = ct.source ∧
     (Trpc.VerifyStatistic fetched llm now ct).statistic.sourceURL = ct.sourceURL ∧
     (Trpc.VerifyStatistic fetched llm now ct).statistic.excerpt = ct.excerpt ∧
     (Trpc.VerifyStatistic fetched llm now ct).statistic.verified =
       (Trpc.VerifyStatistic fetched llm now ct).verified ∧
     (Trpc.VerifyStatistic fetched llm now ct).statistic.dateFound = now) := by
  cases fetched <;> simp [Adk.verifyStatistic, Trpc.VerifyStatistic]

end StatsAgent
